import Mathlib

/-!
Shallow embedding of `proxy.py` (an NFC-spoofing Joy-Con proxy) and proofs
about its main loop, frame handlers, MCU emulation state and teardown flow.

Frames are byte lists (`List Nat`, each entry intended `< 256`).  Python
indexing `frame[i]` on a frame known to be long enough is embedded as
`byteAt frame i` (out-of-range reads default to 0; every theorem that needs
in-range reads carries an explicit length hypothesis).  The Python objects
mutated in place (`mcu`, `report`) become explicit state passing; the
exceptions raised by the handlers (`TypeError` on subscripting `None`,
`NotImplementedError` on an unknown MCU-state sub-command) become an
`Except ProxyError` result.
-/

/-- Byte access `frame[i]` (0 when out of range). -/
def byteAt (f : List Nat) (i : Nat) : Nat :=
  (f.get? i).getD 0

/-- Errors the embedded handlers can raise: subscripting a `None`
`output_report` (Python `TypeError`), and the explicit
`NotImplementedError` of `command_set_nfc_ir_mcu_state`. -/
inductive ProxyError where
  | noneSubscript : ProxyError
  | notImplemented : Nat → ProxyError
deriving Repr, DecidableEq

/-- MCU operating state, from `ir_nfc_mcu.McuState` as used by `proxy.py`. -/
inductive McuState where
  | STAND_BY : McuState
  | NFC : McuState
deriving Repr, DecidableEq

/-- MCU current action, the `Action` enum of `ir_nfc_mcu` as used by
`proxy.py` (renamed here to avoid clashing with a library name). -/
inductive McuAction where
  | NON : McuAction
  | REQUEST_STATUS : McuAction
  | START_TAG_DISCOVERY : McuAction
  | START_TAG_POLLING : McuAction
  | READ_TAG : McuAction
  | READ_TAG_2 : McuAction
  | READ_FINISHED : McuAction
deriving Repr, DecidableEq

/-- Modelled from the spec: the `IrNfcMcu` emulation object (its module
`ir_nfc_mcu` is not under `src/`; only `proxy.py` which drives it is).
Fields follow the spec's data model: `operating_state`, `current_action`,
the optional immutable `tag_image` (`nfc_data`), an internal read-progress
counter, and an internal sequence counter for status frames. -/
structure IrNfcMcu where
  state : McuState
  action : McuAction
  nfcData : Option (List Nat)
  readProgress : Nat
  seqNo : Nat
deriving Repr, DecidableEq

/-- Modelled from the spec: a freshly constructed `IrNfcMcu()` starts
inert: stand-by state, no action, no tag image, counters at zero. -/
def initialMcu : IrNfcMcu :=
  ⟨McuState.STAND_BY, McuAction.NON, none, 0, 0⟩

def IrNfcMcu.set_state (m : IrNfcMcu) (s : McuState) : IrNfcMcu :=
  { m with state := s }

def IrNfcMcu.set_action (m : IrNfcMcu) (a : McuAction) : IrNfcMcu :=
  { m with action := a }

def IrNfcMcu.set_nfc (m : IrNfcMcu) (d : Option (List Nat)) : IrNfcMcu :=
  { m with nfcData := d }

def IrNfcMcu.get_action (m : IrNfcMcu) : McuAction :=
  m.action

/-- Modelled from the spec: `mcu.update_status()` refreshes the internal
sequence counter of the status block (`ir_nfc_mcu` is not under `src/`). -/
def IrNfcMcu.update_status (m : IrNfcMcu) : IrNfcMcu :=
  { m with seqNo := m.seqNo + 1 }

/-- Modelled from the spec: the tag image is emitted in fixed-size chunks
because one frame cannot carry a full tag image. -/
def chunkSize : Nat := 290

/-- Modelled from the spec: number of polls needed to emit the whole
tag image in `chunkSize`-byte chunks. -/
def numChunks (d : List Nat) : Nat :=
  d.length / chunkSize + 1

/-- Modelled from the spec: `mcu.update_nfc_report()` — while
`current_action = READ_TAG` each poll advances the internal progress
counter; once enough chunks have been emitted the action advances
READ_TAG → READ_TAG_2 → READ_FINISHED and then holds at READ_FINISHED. -/
def IrNfcMcu.update_nfc_report (m : IrNfcMcu) : IrNfcMcu :=
  match m.action with
  | McuAction.READ_TAG =>
      if m.readProgress + 1 < numChunks (m.nfcData.getD []) then
        { m with readProgress := m.readProgress + 1 }
      else
        { m with action := McuAction.READ_TAG_2, readProgress := m.readProgress + 1 }
  | McuAction.READ_TAG_2 => { m with action := McuAction.READ_FINISHED }
  | _ => m

/-- Byte encoding of the operating state inside the status block. -/
def stateByte : McuState → Nat
  | McuState.STAND_BY => 0x00
  | McuState.NFC => 0x04

/-- Byte encoding of the current action inside the status block. -/
def actionByte : McuAction → Nat
  | McuAction.NON => 0x00
  | McuAction.REQUEST_STATUS => 0x01
  | McuAction.START_TAG_DISCOVERY => 0x02
  | McuAction.START_TAG_POLLING => 0x03
  | McuAction.READ_TAG => 0x04
  | McuAction.READ_TAG_2 => 0x05
  | McuAction.READ_FINISHED => 0x06

/-- Modelled from the spec: the 34-byte MCU status block reflecting the
current state, action and sequence counters; bytes beyond the
reverse-engineered ones are opaque zero defaults. -/
def mcuStatusHeader (m : IrNfcMcu) : List Nat :=
  [0x01, 0x00, 0x00, stateByte m.state, m.seqNo % 256,
   actionByte m.action, m.readProgress % 256] ++ List.replicate 27 0

/-- Modelled from the spec: while a tag read is in progress the synthesized
payload carries the next chunk of the tag image. -/
def mcuTagPayload (m : IrNfcMcu) : List Nat :=
  match m.action, m.nfcData with
  | McuAction.READ_TAG, some d => (d.drop (m.readProgress * chunkSize)).take chunkSize
  | McuAction.READ_TAG_2, some d => (d.drop (m.readProgress * chunkSize)).take chunkSize
  | _, _ => []

/-- Modelled from the spec: `bytes(mcu)` — the MCU-synthesized payload,
status block first, then any in-progress tag-image chunk. -/
def mcuBytes (m : IrNfcMcu) : List Nat :=
  mcuStatusHeader m ++ mcuTagPayload m

/-- Modelled from the spec: the Checksum Codec, a deterministic 8-bit CRC
with a fixed polynomial over the input bytes producing one checksum byte
(the `crc8` module is not under `src/`).  Standard MSB-first CRC-8,
polynomial 0x07, initial value 0. -/
def crc8Byte (crc b : Nat) : Nat :=
  (List.range 8).foldl
    (fun acc _ => if acc ≥ 128 then ((acc * 2) ^^^ 0x07) % 256 else (acc * 2) % 256)
    ((crc ^^^ b) % 256)

/-- Modelled from the spec: CRC-8 over a byte list. -/
def crc8 (data : List Nat) : Nat :=
  data.foldl crc8Byte 0

/-- `for i in range(len(data)): report[16 + i] = data[i]`, generalized over
the starting position: write `data` into `report` at positions
`pos, pos+1, ...` (writes beyond the end of `report` are dropped, as
`List.set` is; the real frames are long enough for every write to land). -/
def writeAt : List Nat → Nat → List Nat → List Nat
  | report, _, [] => report
  | report, pos, d :: ds => writeAt (report.set pos d) (pos + 1) ds

/-- `command_set_nfc_ir_mcu_config(mcu, report, output_report)` from
`proxy.py` lines 103-132.  Sets the marker bytes, refreshes the MCU status,
writes the 34-byte status block (checksummed over its first 33 bytes) at
offset 16, then changes the MCU state per the config argument found in
`output_report[12:]` (unknown arguments are diagnostic-only).  Subscripting
a `None` `output_report` is the embedded `noneSubscript` error. -/
def command_set_nfc_ir_mcu_config (mcu : IrNfcMcu) (report : List Nat)
    (output_report : Option (List Nat)) : Except ProxyError (IrNfcMcu × List Nat) :=
  match output_report with
  | none => Except.error ProxyError.noneSubscript
  | some out =>
    let report := ((((report.set 1 0x21).set 3 0x8E).set 14 0xA0).set 15 0x21)
    let mcu := mcu.update_status
    let data := (mcuBytes mcu).take 34
    let checksum := crc8 (data.take 33)
    let data := data.set 33 checksum
    let report := writeAt report 16 data
    let subCommandData := out.drop 12
    let mcu :=
      if byteAt subCommandData 1 = 0 then
        if byteAt subCommandData 2 = 0 then mcu.set_state McuState.STAND_BY
        else if byteAt subCommandData 2 = 4 then mcu.set_state McuState.NFC
        else mcu
      else mcu
    Except.ok (mcu, report)

/-- `command_set_nfc_ir_mcu_state(mcu, report, output_report)` from
`proxy.py` lines 135-149.  Sets the marker bytes, then acts on the
sub-command id `output_report[12]`: 0x01 (Resume) clears the action and
stands the MCU by, 0x00 (Suspend) stands it by, anything else raises
`NotImplementedError`.  Subscripting a `None` `output_report` is the
embedded `noneSubscript` error. -/
def command_set_nfc_ir_mcu_state (mcu : IrNfcMcu) (report : List Nat)
    (output_report : Option (List Nat)) : Except ProxyError (IrNfcMcu × List Nat) :=
  match output_report with
  | none => Except.error ProxyError.noneSubscript
  | some out =>
    let report := ((((report.set 1 0x21).set 3 0x8E).set 14 0x80).set 15 0x22)
    let subCommandId := byteAt out 12
    if subCommandId = 0x01 then
      Except.ok ((mcu.set_action McuAction.NON).set_state McuState.STAND_BY, report)
    else if subCommandId = 0x00 then
      Except.ok (mcu.set_state McuState.STAND_BY, report)
    else
      Except.error (ProxyError.notImplemented subCommandId)

/-- Semantic category of a peripheral frame, per the branch conditions of
the main loop (`proxy.py` lines 298-317): the 0xA0/0x21 marker pair at
offsets 14/15 first, then the 0x80/0x22 pair, then report id 0x31, else
pass-through. -/
inductive Category where
  | SetMcuConfig : Category
  | SetMcuState : Category
  | NfcModeReport : Category
  | PassThrough : Category
deriving Repr, DecidableEq

/-- The classifier implicit in the main loop's branch conditions. -/
def classify (f : List Nat) : Category :=
  if byteAt f 14 = 0xA0 ∧ byteAt f 15 = 0x21 then Category.SetMcuConfig
  else if byteAt f 14 = 0x80 ∧ byteAt f 15 = 0x22 then Category.SetMcuState
  else if byteAt f 1 = 0x31 then Category.NfcModeReport
  else Category.PassThrough

/-- `reply[1] == 0x01 and (reply[11] == 0x21 or reply[11] == 0x22)` — the
condition under which the main loop remembers a host frame in
`last_output_report` (`proxy.py` line 283). -/
def isRemembered (r : List Nat) : Bool :=
  byteAt r 1 == 0x01 && (byteAt r 11 == 0x21 || byteAt r 11 == 0x22)

/-- `last_output_report` update for one loop iteration
(`proxy.py` lines 282-284). -/
def rememberUpdate (lor : Option (List Nat)) (reply : Option (List Nat)) :
    Option (List Nat) :=
  match reply with
  | some r => if isRemembered r then some r else lor
  | none => lor

/-- The timer-counter update of `proxy.py` lines 289-292: wrapping 8-bit
delta — `counter += new - (old - 255)` when `new < old`, else
`counter += new - old`. -/
def timerUpdate (timerOld timerNew counter : Int) : Int :=
  if timerNew < timerOld then counter + (timerNew - (timerOld - 255))
  else counter + (timerNew - timerOld)

/-- `mcu` transitions driven by a host output report
(`proxy.py` lines 321-344): only MCU-subcommand frames (`reply[1] == 0x11`)
act; an in-progress read (READ_TAG / READ_TAG_2 / READ_FINISHED) ignores
every sub-command; otherwise sub-command 0x01 requests status and 0x02
starts discovery/polling/stops/starts reading per its first argument byte. -/
def hostTransition (m : IrNfcMcu) (reply : List Nat) : IrNfcMcu :=
  if byteAt reply 1 = 0x11 then
    let subCommand := byteAt reply 11
    let arg := byteAt reply 12
    if m.get_action = McuAction.READ_TAG ∨ m.get_action = McuAction.READ_TAG_2 ∨
        m.get_action = McuAction.READ_FINISHED then m
    else if subCommand = 0x01 then m.set_action McuAction.REQUEST_STATUS
    else if subCommand = 0x02 then
      if arg = 0x04 then m.set_action McuAction.START_TAG_DISCOVERY
      else if arg = 0x01 then m.set_action McuAction.START_TAG_POLLING
      else if arg = 0x02 then m.set_action McuAction.NON
      else if arg = 0x06 then m.set_action McuAction.READ_TAG
      else m
    else m
  else m

/-- Observable actions of one main-loop iteration, in the order the code
performs them: receiving a host frame, forwarding it to the peripheral,
the blocking peripheral read, a host-driven MCU transition, and sending
the (possibly synthesized) frame to the host. -/
inductive Event where
  | hostRecv : Event
  | fwdToPeripheral : Event
  | periphRead : Event
  | mcuTransition : Event
  | sendToHost : Event
deriving Repr, DecidableEq

/-- Mutable state threaded through main-loop iterations
(`proxy.py` lines 188-190, 272-274). -/
structure LoopState where
  mcu : IrNfcMcu
  lastOutputReport : Option (List Nat)
  timerOld : Int
  timerCounter : Int
deriving Repr, DecidableEq

/-- Loop state on entry to the main loop: fresh MCU loaded with the
optional tag image, no remembered output report, timer fields zero. -/
def initialLoopState (nfcData : Option (List Nat)) : LoopState :=
  ⟨initialMcu.set_nfc nfcData, none, 0, 0⟩

/-- One iteration of the main proxy loop (`proxy.py` lines 275-348), as a
state transformer.  Inputs: the optional host frame obtained by the
non-blocking read (`reply`), and the peripheral frame of the blocking read
(`jcData`).  Result: the new loop state, the frame sent to the host, and
the ordered list of observable events of the iteration.  A handler
exception aborts the iteration (nothing is sent). -/
def mainLoopStep (nfcData : Option (List Nat)) (s : LoopState)
    (reply : Option (List Nat)) (jcData : List Nat) :
    Except ProxyError (LoopState × List Nat × List Event) :=
  let lor := rememberUpdate s.lastOutputReport reply
  let step1Events : List Event :=
    match reply with
    | some _ => [Event.hostRecv, Event.fwdToPeripheral]
    | none => []
  let timerNew : Int := byteAt jcData 2
  let counter := timerUpdate s.timerOld timerNew s.timerCounter
  match nfcData with
  | some _ =>
    match
      (match classify jcData with
       | Category.SetMcuConfig => command_set_nfc_ir_mcu_config s.mcu jcData lor
       | Category.SetMcuState => command_set_nfc_ir_mcu_state s.mcu jcData lor
       | Category.NfcModeReport =>
           let m := s.mcu.update_nfc_report
           Except.ok (m, jcData.take 50 ++ mcuBytes m)
       | Category.PassThrough => Except.ok (s.mcu, jcData)) with
    | Except.error e => Except.error e
    | Except.ok (m1, outFrame) =>
      let m2 :=
        match reply with
        | some r => hostTransition m1 r
        | none => m1
      let transitionEvents :=
        match reply with
        | some r => if byteAt r 1 = 0x11 then [Event.mcuTransition] else []
        | none => []
      Except.ok (⟨m2, lor, timerNew, counter⟩, outFrame,
        step1Events ++ [Event.periphRead] ++ transitionEvents ++ [Event.sendToHost])
  | none =>
    Except.ok (⟨s.mcu, lor, timerNew, counter⟩, jcData,
      step1Events ++ [Event.periphRead, Event.sendToHost])

/-- Iterated main loop over a list of per-iteration inputs
(host frame if any, peripheral frame). -/
def runLoop (nfcData : Option (List Nat)) :
    LoopState → List (Option (List Nat) × List Nat) → Except ProxyError LoopState
  | s, [] => Except.ok s
  | s, (r, jc) :: rest =>
    match mainLoopStep nfcData s r jc with
    | Except.ok (s1, _, _) => runLoop nfcData s1 rest
    | Except.error e => Except.error e

/-- How the process can leave the main loop (`proxy.py` lines 350-382):
a `KeyboardInterrupt`, an `OSError`, or any other exception — in
particular the `NotImplementedError` of `command_set_nfc_ir_mcu_state`
and the `TypeError` of subscripting a `None` `output_report`, which match
neither `except` clause. -/
inductive SessionOutcome where
  | keyboardInterrupt : SessionOutcome
  | osError : SessionOutcome
  | otherException : SessionOutcome
deriving Repr, DecidableEq

/-- Which teardown obligations actually run on a given exit path. -/
structure TeardownEffects where
  jcEndpointsClosed : Bool
  switchEndpointsClosed : Bool
  toggleReverted : Bool
  traceFlushed : Bool
  exitNonZero : Bool
deriving Repr, DecidableEq

/-- The teardown flow of `proxy.py` lines 350-382: the `except
KeyboardInterrupt` and `except OSError` handlers close all four sockets;
any other exception skips both handlers, so only the `finally` block runs
— it reverts the input-plugin toggle, writes the message buffer to
`messages.txt`, and exits with status 1 on every path. -/
def sessionTeardown : SessionOutcome → TeardownEffects
  | SessionOutcome.keyboardInterrupt => ⟨true, true, true, true, true⟩
  | SessionOutcome.osError => ⟨true, true, true, true, true⟩
  | SessionOutcome.otherException => ⟨false, false, true, true, true⟩

/-- Python exception class routing for the embedded errors: both
`TypeError` and `NotImplementedError` are neither `KeyboardInterrupt` nor
`OSError`, so either one leaves the loop as `otherException`. -/
def outcomeOfError : ProxyError → SessionOutcome
  | ProxyError.noneSubscript => SessionOutcome.otherException
  | ProxyError.notImplemented _ => SessionOutcome.otherException

theorem byteAt_set_ne (l : List Nat) (a : Nat) {i j : Nat} (h : i ≠ j) :
    byteAt (l.set i a) j = byteAt l j := by
  simp [byteAt, List.getElem?_set_ne h]

theorem byteAt_set_eq (l : List Nat) (a : Nat) {i : Nat} (h : i < l.length) :
    byteAt (l.set i a) i = a := by
  simp [byteAt, List.getElem?_set_eq_of_lt a h]

theorem writeAt_length (d : List Nat) (r : List Nat) (p : Nat) :
    (writeAt r p d).length = r.length := by
  induction d generalizing r p with
  | nil => rfl
  | cons x xs ih => simp [writeAt, ih, List.length_set]

theorem writeAt_get?_lt (d : List Nat) (r : List Nat) (p : Nat) {i : Nat}
    (h : i < p) : (writeAt r p d).get? i = r.get? i := by
  induction d generalizing r p with
  | nil => rfl
  | cons x xs ih =>
    rw [writeAt, ih (r.set p x) (p + 1) (Nat.lt_succ_of_lt h)]
    exact List.get?_set_ne x r (Nat.ne_of_gt h)

theorem byteAt_writeAt_lt (d : List Nat) (r : List Nat) (p : Nat) {i : Nat}
    (h : i < p) : byteAt (writeAt r p d) i = byteAt r i := by
  simp only [byteAt]
  rw [writeAt_get?_lt d r p h]

theorem writeAt_drop_take (d : List Nat) (r : List Nat) (p : Nat)
    (h : p + d.length ≤ r.length) :
    ((writeAt r p d).drop p).take d.length = d := by
  induction d generalizing r p with
  | nil => simp [writeAt]
  | cons x xs ih =>
    rw [writeAt]
    have hlen : (writeAt (r.set p x) (p + 1) xs).length = r.length := by
      rw [writeAt_length, List.length_set]
    have hp : p < (writeAt (r.set p x) (p + 1) xs).length := by
      rw [hlen]; simp only [List.length_cons] at h; omega
    rw [List.drop_eq_getElem_cons hp]
    have hget : (writeAt (r.set p x) (p + 1) xs).get? p = some x := by
      rw [writeAt_get?_lt xs (r.set p x) (p + 1) (Nat.lt_succ_self p)]
      exact List.get?_set_eq_of_lt x
        (show p < r.length by simp only [List.length_cons] at h; omega)
    have hx : (writeAt (r.set p x) (p + 1) xs)[p] = x := by
      rw [List.get?_eq_getElem?, List.getElem?_eq_getElem hp] at hget
      exact Option.some_inj.mp hget
    rw [hx, List.length_cons, List.take_succ_cons,
      ih (r.set p x) (p + 1)
        (by rw [List.length_set]; simp only [List.length_cons] at h; omega)]

theorem take_set_of_le (l : List Nat) (a : Nat) {n m : Nat} (hm : m ≤ n)
    (h : n < l.length) : (l.set n a).take m = l.take m := by
  rw [List.set_eq_take_cons_drop a h, List.take_append_eq_append_take]
  have h1 : (l.take n).length = n := by
    rw [List.length_take]; omega
  rw [h1, List.take_take, Nat.min_eq_left hm, Nat.sub_eq_zero_of_le hm]
  simp

theorem mcuStatusHeader_length (m : IrNfcMcu) : (mcuStatusHeader m).length = 34 := by
  simp [mcuStatusHeader]

theorem mcuBytes_take_34_length (m : IrNfcMcu) : ((mcuBytes m).take 34).length = 34 := by
  rw [List.length_take, mcuBytes, List.length_append, mcuStatusHeader_length]
  omega

/-- Claim C7: classification of a peripheral frame is a function of only
bytes 1, 14 and 15 — any two frames agreeing at those offsets classify
identically — and the SetMcuConfig / SetMcuState marker tests take
precedence over the NfcModeReport test. -/
theorem classify_depends_only_on_marker_bytes :
    (∀ f g : List Nat, byteAt f 1 = byteAt g 1 → byteAt f 14 = byteAt g 14 →
      byteAt f 15 = byteAt g 15 → classify f = classify g) ∧
    (∀ f : List Nat, byteAt f 14 = 0xA0 → byteAt f 15 = 0x21 →
      classify f = Category.SetMcuConfig) ∧
    (∀ f : List Nat, byteAt f 14 = 0x80 → byteAt f 15 = 0x22 →
      classify f = Category.SetMcuState) := by
  refine ⟨?_, ?_, ?_⟩
  · intro f g h1 h14 h15
    simp only [classify, h1, h14, h15]
  · intro f h14 h15
    simp [classify, h14, h15]
  · intro f h14 h15
    simp [classify, h14, h15]

/-- Witness for C7: a frame carrying both the NfcModeReport id 0x31 and the
SetMcuConfig markers classifies as SetMcuConfig, and a frame agreeing with
it at offsets 1, 14, 15 but differing elsewhere classifies identically. -/
theorem classify_depends_only_on_marker_bytes_witness :
    classify [0, 0x31, 0, 0, 0, 0, 0, 0, 0, 0, 0, 0, 0, 0, 0xA0, 0x21]
      = Category.SetMcuConfig ∧
    classify [9, 0x31, 9, 9, 9, 9, 9, 9, 9, 9, 9, 9, 9, 9, 0xA0, 0x21, 9, 9]
      = classify [0, 0x31, 0, 0, 0, 0, 0, 0, 0, 0, 0, 0, 0, 0, 0xA0, 0x21] ∧
    classify [0, 0, 0, 0, 0, 0, 0, 0, 0, 0, 0, 0, 0, 0, 0x80, 0x22]
      = Category.SetMcuState :=
  ⟨classify_depends_only_on_marker_bytes.2.1 _ (by decide) (by decide),
   classify_depends_only_on_marker_bytes.1 _ _ (by decide) (by decide) (by decide),
   classify_depends_only_on_marker_bytes.2.2 _ (by decide) (by decide)⟩

/-- Claim C8: the Timer Tracker update — each iteration stores the
peripheral frame's byte 2 as the new timer value and advances the counter
by `new - (old - 255)` when `new < old`, else by `new - old`; in
particular old=254, new=1 advances by exactly 2 and old=10, new=15 by
exactly 5. -/
theorem timer_counter_update_formula :
    (∀ nfc s reply jc s2 sent evs,
      mainLoopStep nfc s reply jc = Except.ok (s2, sent, evs) →
        s2.timerCounter = timerUpdate s.timerOld (byteAt jc 2) s.timerCounter ∧
        s2.timerOld = byteAt jc 2) ∧
    (∀ o n c : Int, n < o → timerUpdate o n c = c + (n - (o - 255))) ∧
    (∀ o n c : Int, ¬n < o → timerUpdate o n c = c + (n - o)) ∧
    (∀ c : Int, timerUpdate 254 1 c = c + 2) ∧
    (∀ c : Int, timerUpdate 10 15 c = c + 5) := by
  refine ⟨?_, ?_, ?_, ?_, ?_⟩
  · intro nfc s reply jc s2 sent evs h
    cases nfc with
    | none =>
      simp only [mainLoopStep, Except.ok.injEq, Prod.mk.injEq] at h
      obtain ⟨h1, -, -⟩ := h
      subst h1
      exact ⟨rfl, rfl⟩
    | some d =>
      simp only [mainLoopStep] at h
      split at h
      · simp at h
      · simp only [Except.ok.injEq, Prod.mk.injEq] at h
        obtain ⟨h1, -, -⟩ := h
        subst h1
        exact ⟨rfl, rfl⟩
  · intro o n c h
    simp [timerUpdate, h]
  · intro o n c h
    simp [timerUpdate, h]
  · intro c
    simp [timerUpdate]
  · intro c
    simp [timerUpdate]

/-- Witness for C8: one concrete pass-through iteration stores byte 2 and
advances the counter per the formula, and the two concrete wraparound
instances advance by 2 and 5. -/
theorem timer_counter_update_formula_witness :
    (({ mcu := initialMcu, lastOutputReport := none, timerOld := 5,
        timerCounter := 5 } : LoopState).timerCounter
      = timerUpdate (initialLoopState none).timerOld (byteAt [0, 0, 5] 2)
          (initialLoopState none).timerCounter) ∧
    timerUpdate 254 1 0 = 0 + (1 - (254 - 255)) ∧
    timerUpdate 254 1 0 = 0 + 2 ∧
    timerUpdate 10 15 0 = 0 + 5 :=
  ⟨(timer_counter_update_formula.1 none (initialLoopState none) none [0, 0, 5]
      _ _ _ rfl).1,
   timer_counter_update_formula.2.1 254 1 0 (by decide),
   timer_counter_update_formula.2.2.2.1 0,
   timer_counter_update_formula.2.2.2.2 0⟩

/-- Claim C6: with no tag image configured, every main-loop iteration
forwards the peripheral frame to the host byte-for-byte unmodified and
leaves the MCU emulation state untouched, whatever the frame's
classification is. -/
theorem passthrough_when_no_tag_image (s : LoopState) (reply : Option (List Nat))
    (jc : List Nat) :
    ∃ s2 evs, mainLoopStep none s reply jc = Except.ok (s2, jc, evs) ∧
      s2.mcu = s.mcu := by
  cases reply with
  | none => exact ⟨_, _, rfl, rfl⟩
  | some r => exact ⟨_, _, rfl, rfl⟩

/-- Counterexample to C4: a host frame whose byte 1 equals 0x11 (an
MCU-subcommand frame) is forwarded but NOT remembered — after the
iteration `lastOutputReport` is still `none`. -/
theorem host_frame_0x11_not_remembered :
    byteAt [0, 0x11, 0, 0, 0, 0, 0, 0, 0, 0, 0, 0] 1 = 0x11 ∧
    mainLoopStep none (initialLoopState none)
        (some [0, 0x11, 0, 0, 0, 0, 0, 0, 0, 0, 0, 0]) (List.replicate 50 0)
      = Except.ok (initialLoopState none, List.replicate 50 0,
          [Event.hostRecv, Event.fwdToPeripheral, Event.periphRead,
           Event.sendToHost]) ∧
    (initialLoopState none).lastOutputReport = none := by
  refine ⟨rfl, ?_, rfl⟩
  rfl

/-- Claim C4 (amended): in main-loop step 1 a received host frame is
remembered if and only if its byte 1 equals 0x01 and its byte 11 is 0x21
or 0x22 (a rumble-and-subcommand output report carrying sub-command 0x21
or 0x22), not when its byte 1 equals 0x11. -/
theorem last_output_report_condition :
    (∀ nfc s reply jc s2 sent evs,
      mainLoopStep nfc s (some reply) jc = Except.ok (s2, sent, evs) →
        s2.lastOutputReport =
          if isRemembered reply then some reply else s.lastOutputReport) ∧
    (∀ reply, isRemembered reply = true ↔
      (byteAt reply 1 = 0x01 ∧ (byteAt reply 11 = 0x21 ∨ byteAt reply 11 = 0x22))) := by
  constructor
  · intro nfc s reply jc s2 sent evs h
    cases nfc with
    | none =>
      simp only [mainLoopStep, Except.ok.injEq, Prod.mk.injEq] at h
      obtain ⟨h1, -, -⟩ := h
      subst h1
      rfl
    | some d =>
      simp only [mainLoopStep] at h
      split at h
      · simp at h
      · simp only [Except.ok.injEq, Prod.mk.injEq] at h
        obtain ⟨h1, -, -⟩ := h
        subst h1
        rfl
  · intro reply
    simp [isRemembered]

/-- Witness for C4 (amended): a concrete 0x01/0x21 output report is
remembered by the iteration. -/
theorem last_output_report_condition_witness :
    ({ mcu := initialMcu.set_nfc none,
       lastOutputReport := some [0, 0x01, 0, 0, 0, 0, 0, 0, 0, 0, 0, 0x21],
       timerOld := 0, timerCounter := 0 } : LoopState).lastOutputReport =
      if isRemembered [0, 0x01, 0, 0, 0, 0, 0, 0, 0, 0, 0, 0x21] then
        some [0, 0x01, 0, 0, 0, 0, 0, 0, 0, 0, 0, 0x21]
      else (initialLoopState none).lastOutputReport :=
  last_output_report_condition.1 none (initialLoopState none)
    [0, 0x01, 0, 0, 0, 0, 0, 0, 0, 0, 0, 0x21] (List.replicate 50 0) _ _ _ rfl

/-- Counterexample to C2: an undefined MCU-state sub-command id (0x02)
raises the UnsupportedOperation fault, but on that exit path the teardown
code does NOT close the transport endpoints — `NotImplementedError`
matches neither the `KeyboardInterrupt` nor the `OSError` handler, the
only places the sockets are closed. -/
theorem unknown_mcu_state_subcommand_skips_socket_close :
    command_set_nfc_ir_mcu_state initialMcu (List.replicate 50 0)
        (some ((List.replicate 13 0).set 12 0x02))
      = Except.error (ProxyError.notImplemented 0x02) ∧
    (sessionTeardown (outcomeOfError (ProxyError.notImplemented 0x02))).jcEndpointsClosed
      = false ∧
    (sessionTeardown (outcomeOfError (ProxyError.notImplemented 0x02))).switchEndpointsClosed
      = false := by
  refine ⟨?_, rfl, rfl⟩
  rfl

/-- Claim C2 (amended): any MCU-state sub-command id other than 0x00
(Suspend) and 0x01 (Resume) raises the UnsupportedOperation fault and the
session aborts; on that path the input-plugin toggle is reverted, the
trace buffer is flushed and the process exits non-zero, but the transport
endpoints are NOT closed by the teardown code (only the KeyboardInterrupt
and OSError paths close them). -/
theorem unknown_mcu_state_subcommand_aborts (mcu : IrNfcMcu)
    (report out : List Nat) (h0 : byteAt out 12 ≠ 0x00)
    (h1 : byteAt out 12 ≠ 0x01) :
    command_set_nfc_ir_mcu_state mcu report (some out)
      = Except.error (ProxyError.notImplemented (byteAt out 12)) ∧
    (sessionTeardown (outcomeOfError
      (ProxyError.notImplemented (byteAt out 12)))).toggleReverted = true ∧
    (sessionTeardown (outcomeOfError
      (ProxyError.notImplemented (byteAt out 12)))).traceFlushed = true ∧
    (sessionTeardown (outcomeOfError
      (ProxyError.notImplemented (byteAt out 12)))).exitNonZero = true ∧
    (sessionTeardown (outcomeOfError
      (ProxyError.notImplemented (byteAt out 12)))).jcEndpointsClosed = false ∧
    (sessionTeardown (outcomeOfError
      (ProxyError.notImplemented (byteAt out 12)))).switchEndpointsClosed = false := by
  refine ⟨?_, rfl, rfl, rfl, rfl, rfl⟩
  simp [command_set_nfc_ir_mcu_state, h0, h1]

/-- Witness for C2 (amended): the fault and teardown effects at the
concrete undefined sub-command id 0x03. -/
theorem unknown_mcu_state_subcommand_aborts_witness :
    command_set_nfc_ir_mcu_state initialMcu (List.replicate 50 0)
        (some ((List.replicate 13 0).set 12 0x03))
      = Except.error (ProxyError.notImplemented
          (byteAt ((List.replicate 13 0).set 12 0x03) 12)) ∧
    (sessionTeardown (outcomeOfError (ProxyError.notImplemented
      (byteAt ((List.replicate 13 0).set 12 0x03) 12)))).toggleReverted = true ∧
    (sessionTeardown (outcomeOfError (ProxyError.notImplemented
      (byteAt ((List.replicate 13 0).set 12 0x03) 12)))).traceFlushed = true ∧
    (sessionTeardown (outcomeOfError (ProxyError.notImplemented
      (byteAt ((List.replicate 13 0).set 12 0x03) 12)))).exitNonZero = true ∧
    (sessionTeardown (outcomeOfError (ProxyError.notImplemented
      (byteAt ((List.replicate 13 0).set 12 0x03) 12)))).jcEndpointsClosed = false ∧
    (sessionTeardown (outcomeOfError (ProxyError.notImplemented
      (byteAt ((List.replicate 13 0).set 12 0x03) 12)))).switchEndpointsClosed = false :=
  unknown_mcu_state_subcommand_aborts initialMcu (List.replicate 50 0)
    ((List.replicate 13 0).set 12 0x03) (by decide) (by decide)

/-- Claim C9: with a tag image configured, an NfcModeReport peripheral
frame is answered by a synthesized frame that keeps bytes 0-49 of the
original frame verbatim and replaces everything from offset 50 on with
the MCU-synthesized payload. -/
theorem nfc_mode_report_splices_mcu_payload (d : List Nat) (s : LoopState)
    (reply : Option (List Nat)) (jc : List Nat) (s2 : LoopState)
    (sent : List Nat) (evs : List Event) (hlen : 50 ≤ jc.length)
    (hcls : classify jc = Category.NfcModeReport)
    (h : mainLoopStep (some d) s reply jc = Except.ok (s2, sent, evs)) :
    sent.take 50 = jc.take 50 ∧
    sent.drop 50 = mcuBytes s.mcu.update_nfc_report := by
  simp only [mainLoopStep, hcls] at h
  simp only [Except.ok.injEq, Prod.mk.injEq] at h
  obtain ⟨-, h2, -⟩ := h
  subst h2
  constructor
  · exact List.take_left' (by rw [List.length_take]; omega)
  · exact List.drop_left' (by rw [List.length_take]; omega)

/-- Witness for C9: a concrete 50-byte 0x31 report is answered by its own
first 50 bytes followed by the MCU payload. -/
theorem nfc_mode_report_splices_mcu_payload_witness :
    ((((List.replicate 50 3).set 1 0x31).take 50 ++
        mcuBytes ((initialLoopState (some [9])).mcu.update_nfc_report)).take 50
      = ((List.replicate 50 3).set 1 0x31).take 50) ∧
    ((((List.replicate 50 3).set 1 0x31).take 50 ++
        mcuBytes ((initialLoopState (some [9])).mcu.update_nfc_report)).drop 50
      = mcuBytes ((initialLoopState (some [9])).mcu.update_nfc_report)) :=
  nfc_mode_report_splices_mcu_payload [9] (initialLoopState (some [9])) none
    ((List.replicate 50 3).set 1 0x31) _ _ _ (by decide) (by decide) rfl

/-- Claim C5: for every SetMcuConfig frame handled (whatever the config
argument, recognized or not), a response is emitted whose bytes satisfy
[1]=0x21, [3]=0x8E, [14]=0xA0, [15]=0x21 and which carries a 34-byte
status block at offset 16 whose final byte is the 8-bit checksum of the
preceding 33 bytes of that block. -/
theorem config_response_always_emitted (mcu : IrNfcMcu) (report out : List Nat)
    (hlen : 50 ≤ report.length) :
    ∃ mcu2 resp,
      command_set_nfc_ir_mcu_config mcu report (some out) = Except.ok (mcu2, resp) ∧
      byteAt resp 1 = 0x21 ∧ byteAt resp 3 = 0x8E ∧ byteAt resp 14 = 0xA0 ∧
      byteAt resp 15 = 0x21 ∧ ((resp.drop 16).take 34).length = 34 ∧
      byteAt ((resp.drop 16).take 34) 33 =
        crc8 (((resp.drop 16).take 34).take 33) := by
  refine ⟨_, _, rfl, ?_, ?_, ?_, ?_, ?_, ?_⟩
  · rw [byteAt_writeAt_lt _ _ _ (show (1:Nat) < 16 by omega),
      byteAt_set_ne _ _ (show (15:Nat) ≠ 1 by decide),
      byteAt_set_ne _ _ (show (14:Nat) ≠ 1 by decide),
      byteAt_set_ne _ _ (show (3:Nat) ≠ 1 by decide),
      byteAt_set_eq _ _ (show (1:Nat) < report.length by omega)]
  · rw [byteAt_writeAt_lt _ _ _ (show (3:Nat) < 16 by omega),
      byteAt_set_ne _ _ (show (15:Nat) ≠ 3 by decide),
      byteAt_set_ne _ _ (show (14:Nat) ≠ 3 by decide),
      byteAt_set_eq _ _ (show (3:Nat) < (report.set 1 0x21).length by
        rw [List.length_set]; omega)]
  · rw [byteAt_writeAt_lt _ _ _ (show (14:Nat) < 16 by omega),
      byteAt_set_ne _ _ (show (15:Nat) ≠ 14 by decide),
      byteAt_set_eq _ _ (show (14:Nat) < ((report.set 1 0x21).set 3 0x8E).length by
        simp [List.length_set]; omega)]
  · rw [byteAt_writeAt_lt _ _ _ (show (15:Nat) < 16 by omega),
      byteAt_set_eq _ _
        (show (15:Nat) < (((report.set 1 0x21).set 3 0x8E).set 14 0xA0).length by
          simp [List.length_set]; omega)]
  · rw [List.length_take, List.length_drop, writeAt_length]
    simp [List.length_set]
    omega
  · have hdl : (((mcuBytes mcu.update_status).take 34).set 33
        (crc8 (((mcuBytes mcu.update_status).take 34).take 33))).length = 34 := by
      rw [List.length_set, mcuBytes_take_34_length]
    have hmarked : ((((report.set 1 0x21).set 3 0x8E).set 14 0xA0).set 15 0x21).length
        = report.length := by
      simp [List.length_set]
    have hblock := writeAt_drop_take
      (((mcuBytes mcu.update_status).take 34).set 33
        (crc8 (((mcuBytes mcu.update_status).take 34).take 33)))
      ((((report.set 1 0x21).set 3 0x8E).set 14 0xA0).set 15 0x21) 16
      (by rw [hdl, hmarked]; omega)
    rw [hdl] at hblock
    rw [hblock]
    have h33 : (33:Nat) < ((mcuBytes mcu.update_status).take 34).length := by
      rw [mcuBytes_take_34_length]; omega
    rw [take_set_of_le _ _ (Nat.le_refl 33) h33, byteAt_set_eq _ _ h33]

/-- Witness for C5: the response shape at a concrete 50-byte report and a
concrete output report whose config argument is unrecognized (all zeros:
sub_command_data[1]=0, [2]=0 is the stand-by argument). -/
theorem config_response_always_emitted_witness :
    ∃ mcu2 resp,
      command_set_nfc_ir_mcu_config initialMcu (List.replicate 50 0)
          (some (List.replicate 15 0)) = Except.ok (mcu2, resp) ∧
      byteAt resp 1 = 0x21 ∧ byteAt resp 3 = 0x8E ∧ byteAt resp 14 = 0xA0 ∧
      byteAt resp 15 = 0x21 ∧ ((resp.drop 16).take 34).length = 34 ∧
      byteAt ((resp.drop 16).take 34) 33 =
        crc8 (((resp.drop 16).take 34).take 33) :=
  config_response_always_emitted initialMcu (List.replicate 50 0)
    (List.replicate 15 0) (by decide)

theorem mainLoopStep_lastOutputReport (nfc : Option (List Nat)) (s : LoopState)
    (reply : Option (List Nat)) (jc : List Nat) (s2 : LoopState)
    (sent : List Nat) (evs : List Event)
    (h : mainLoopStep nfc s reply jc = Except.ok (s2, sent, evs)) :
    s2.lastOutputReport = rememberUpdate s.lastOutputReport reply := by
  cases nfc with
  | none =>
    simp only [mainLoopStep, Except.ok.injEq, Prod.mk.injEq] at h
    obtain ⟨h1, -, -⟩ := h
    subst h1
    rfl
  | some d =>
    simp only [mainLoopStep] at h
    split at h
    · simp at h
    · simp only [Except.ok.injEq, Prod.mk.injEq] at h
      obtain ⟨h1, -, -⟩ := h
      subst h1
      rfl

theorem rememberUpdate_none (reply : Option (List Nat))
    (h : ∀ r, reply = some r → isRemembered r = false) :
    rememberUpdate none reply = none := by
  cases reply with
  | none => rfl
  | some r => simp [rememberUpdate, h r rfl]

/-- Claim C10: with a tag image configured, handling a SetMcuConfig or
SetMcuState peripheral frame requires that some host frame with byte 1 =
0x01 and byte 11 ∈ {0x21, 0x22} was received first (making the remembered
output report non-None); if no received host frame ever qualified, the
remembered report is still None and the handler faults by subscripting
None instead of emitting the spoofed response. -/
theorem spoof_requires_prior_output_report :
    (∀ nfc s inputs s2, runLoop nfc s inputs = Except.ok s2 →
      s.lastOutputReport = none →
      (∀ p ∈ inputs, ∀ r, p.1 = some r → isRemembered r = false) →
      s2.lastOutputReport = none) ∧
    (∀ d s reply jc,
      rememberUpdate s.lastOutputReport reply = none →
      (classify jc = Category.SetMcuConfig ∨ classify jc = Category.SetMcuState) →
      mainLoopStep (some d) s reply jc = Except.error ProxyError.noneSubscript) := by
  constructor
  · intro nfc s inputs
    induction inputs generalizing s with
    | nil =>
      intro s2 h hnone hall
      simp only [runLoop, Except.ok.injEq] at h
      subst h
      exact hnone
    | cons p rest ih =>
      intro s2 h hnone hall
      obtain ⟨r, jc⟩ := p
      simp only [runLoop] at h
      split at h
      next s1 sent evs heq =>
        have h1 : s1.lastOutputReport = none := by
          rw [mainLoopStep_lastOutputReport nfc s r jc s1 sent evs heq, hnone]
          exact rememberUpdate_none r (fun r' hr' => hall (r, jc) (by simp) r' hr')
        exact ih s1 s2 h h1 (fun p hp => hall p (List.mem_cons_of_mem _ hp))
      next e heq => simp at h
  · intro d s reply jc hnone hcls
    rcases hcls with hcls | hcls <;>
      simp only [mainLoopStep, hcls, hnone, command_set_nfc_ir_mcu_config,
        command_set_nfc_ir_mcu_state]

/-- Witness for C10: from a fresh loop state, a concrete SetMcuConfig
frame with no prior qualifying host frame makes the iteration fault, and
a run whose only host traffic does not qualify keeps the remembered
report None. -/
theorem spoof_requires_prior_output_report_witness :
    mainLoopStep (some [1]) (initialLoopState (some [1])) none
        (((List.replicate 50 0).set 14 0xA0).set 15 0x21)
      = Except.error ProxyError.noneSubscript ∧
    (initialLoopState (some [1])).lastOutputReport = none :=
  ⟨spoof_requires_prior_output_report.2 [1] (initialLoopState (some [1])) none
      (((List.replicate 50 0).set 14 0xA0).set 15 0x21) rfl (Or.inl (by decide)),
   spoof_requires_prior_output_report.1 (some [1]) (initialLoopState (some [1]))
      [(none, List.replicate 50 0)] (initialLoopState (some [1])) rfl rfl (by simp)⟩

/-- Counterexample to C1: in a concrete iteration that receives a host
MCU-subcommand frame (byte 1 = 0x11, sub-command 0x01), the host-driven
MCU transition happens AFTER the peripheral frame is read — the
peripheral-read event strictly precedes the MCU-transition event — while
the claim requires the transition to precede the read. -/
theorem host_transition_after_peripheral_read :
    mainLoopStep (some [1]) (initialLoopState (some [1]))
        (some [0, 0x11, 0, 0, 0, 0, 0, 0, 0, 0, 0, 0x01]) (List.replicate 50 0)
      = Except.ok
          (⟨(initialMcu.set_nfc (some [1])).set_action McuAction.REQUEST_STATUS,
            none, 0, 0⟩, List.replicate 50 0,
           [Event.hostRecv, Event.fwdToPeripheral, Event.periphRead,
            Event.mcuTransition, Event.sendToHost]) ∧
    List.indexOf Event.periphRead
        [Event.hostRecv, Event.fwdToPeripheral, Event.periphRead,
         Event.mcuTransition, Event.sendToHost] <
      List.indexOf Event.mcuTransition
        [Event.hostRecv, Event.fwdToPeripheral, Event.periphRead,
         Event.mcuTransition, Event.sendToHost] :=
  ⟨rfl, by decide⟩

/-- Claim C1 (amended): in every main-loop iteration, a received host
frame is forwarded to the peripheral before the peripheral frame is read,
and the MCU transition it drives happens after the peripheral read (and
after any response synthesis) but before the response is sent to the
host; the peripheral read always precedes the send. -/
theorem main_loop_event_order (nfc : Option (List Nat)) (s : LoopState)
    (reply : Option (List Nat)) (jc : List Nat) (s2 : LoopState)
    (sent : List Nat) (evs : List Event)
    (h : mainLoopStep nfc s reply jc = Except.ok (s2, sent, evs)) :
    (Event.fwdToPeripheral ∈ evs →
      List.indexOf Event.fwdToPeripheral evs < List.indexOf Event.periphRead evs) ∧
    Event.periphRead ∈ evs ∧
    (Event.mcuTransition ∈ evs →
      List.indexOf Event.periphRead evs < List.indexOf Event.mcuTransition evs ∧
      List.indexOf Event.mcuTransition evs < List.indexOf Event.sendToHost evs) ∧
    List.indexOf Event.periphRead evs < List.indexOf Event.sendToHost evs := by
  cases nfc with
  | none =>
    cases reply with
    | none =>
      simp only [mainLoopStep, Except.ok.injEq, Prod.mk.injEq] at h
      obtain ⟨-, -, h3⟩ := h
      subst h3
      decide
    | some r =>
      simp only [mainLoopStep, Except.ok.injEq, Prod.mk.injEq] at h
      obtain ⟨-, -, h3⟩ := h
      subst h3
      decide
  | some d =>
    cases reply with
    | none =>
      simp only [mainLoopStep] at h
      split at h
      · simp at h
      · simp only [Except.ok.injEq, Prod.mk.injEq] at h
        obtain ⟨-, -, h3⟩ := h
        subst h3
        decide
    | some r =>
      by_cases hb : byteAt r 1 = 0x11
      · simp only [mainLoopStep, hb, if_true, eq_self_iff_true] at h
        split at h
        · simp at h
        · simp only [Except.ok.injEq, Prod.mk.injEq] at h
          obtain ⟨-, -, h3⟩ := h
          subst h3
          decide
      · simp only [mainLoopStep, hb] at h
        split at h
        · simp at h
        · simp only [Except.ok.injEq, Prod.mk.injEq] at h
          obtain ⟨-, -, h3⟩ := h
          subst h3
          decide

/-- Witness for C1 (amended): the event order of the concrete iteration
that receives a 0x11 host frame and a pass-through peripheral frame. -/
theorem main_loop_event_order_witness :
    (Event.fwdToPeripheral ∈
        [Event.hostRecv, Event.fwdToPeripheral, Event.periphRead,
         Event.mcuTransition, Event.sendToHost] →
      List.indexOf Event.fwdToPeripheral
          [Event.hostRecv, Event.fwdToPeripheral, Event.periphRead,
           Event.mcuTransition, Event.sendToHost] <
        List.indexOf Event.periphRead
          [Event.hostRecv, Event.fwdToPeripheral, Event.periphRead,
           Event.mcuTransition, Event.sendToHost]) ∧
    Event.periphRead ∈
      [Event.hostRecv, Event.fwdToPeripheral, Event.periphRead,
       Event.mcuTransition, Event.sendToHost] ∧
    (Event.mcuTransition ∈
        [Event.hostRecv, Event.fwdToPeripheral, Event.periphRead,
         Event.mcuTransition, Event.sendToHost] →
      List.indexOf Event.periphRead
          [Event.hostRecv, Event.fwdToPeripheral, Event.periphRead,
           Event.mcuTransition, Event.sendToHost] <
        List.indexOf Event.mcuTransition
          [Event.hostRecv, Event.fwdToPeripheral, Event.periphRead,
           Event.mcuTransition, Event.sendToHost] ∧
      List.indexOf Event.mcuTransition
          [Event.hostRecv, Event.fwdToPeripheral, Event.periphRead,
           Event.mcuTransition, Event.sendToHost] <
        List.indexOf Event.sendToHost
          [Event.hostRecv, Event.fwdToPeripheral, Event.periphRead,
           Event.mcuTransition, Event.sendToHost]) ∧
    List.indexOf Event.periphRead
        [Event.hostRecv, Event.fwdToPeripheral, Event.periphRead,
         Event.mcuTransition, Event.sendToHost] <
      List.indexOf Event.sendToHost
        [Event.hostRecv, Event.fwdToPeripheral, Event.periphRead,
         Event.mcuTransition, Event.sendToHost] :=
  main_loop_event_order (some [1]) (initialLoopState (some [1]))
    (some [0, 0x11, 0, 0, 0, 0, 0, 0, 0, 0, 0, 0x01]) (List.replicate 50 0)
    ⟨(initialMcu.set_nfc (some [1])).set_action McuAction.REQUEST_STATUS,
      none, 0, 0⟩ (List.replicate 50 0)
    [Event.hostRecv, Event.fwdToPeripheral, Event.periphRead,
     Event.mcuTransition, Event.sendToHost] rfl

theorem hostTransition_state (m : IrNfcMcu) (r : List Nat) :
    (hostTransition m r).state = m.state := by
  simp only [hostTransition, IrNfcMcu.set_action, IrNfcMcu.get_action]
  repeat' split
  all_goals rfl

theorem hostTransition_not_subcommand (m : IrNfcMcu) (r : List Nat)
    (h : byteAt r 1 ≠ 0x11) : hostTransition m r = m := by
  simp [hostTransition, h]

theorem update_nfc_report_state (m : IrNfcMcu) :
    m.update_nfc_report.state = m.state := by
  simp only [IrNfcMcu.update_nfc_report]
  repeat' split
  all_goals rfl

theorem update_nfc_report_action_changed (m : IrNfcMcu)
    (h : m.update_nfc_report.action ≠ m.action) :
    m.action = McuAction.READ_TAG ∨ m.action = McuAction.READ_TAG_2 := by
  cases hm : m.action
  case READ_TAG => exact Or.inl rfl
  case READ_TAG_2 => exact Or.inr rfl
  all_goals
    exfalso
    apply h
    simp only [IrNfcMcu.update_nfc_report, hm]

theorem config_ok_action (m : IrNfcMcu) (rpt : List Nat)
    (lor : Option (List Nat)) (m2 : IrNfcMcu) (resp : List Nat)
    (h : command_set_nfc_ir_mcu_config m rpt lor = Except.ok (m2, resp)) :
    m2.action = m.action := by
  cases lor with
  | none => simp [command_set_nfc_ir_mcu_config] at h
  | some out =>
    simp only [command_set_nfc_ir_mcu_config, Except.ok.injEq, Prod.mk.injEq] at h
    obtain ⟨h1, -⟩ := h
    subst h1
    simp only [IrNfcMcu.update_status, IrNfcMcu.set_state]
    repeat' split
    all_goals rfl

theorem mcu_mutation_core (outFrame : List Nat) (s : LoopState) (m1 : IrNfcMcu)
    (reply : Option (List Nat)) (jc : List Nat)
    (heq : (match classify jc with
      | Category.SetMcuConfig =>
          command_set_nfc_ir_mcu_config s.mcu jc (rememberUpdate s.lastOutputReport reply)
      | Category.SetMcuState =>
          command_set_nfc_ir_mcu_state s.mcu jc (rememberUpdate s.lastOutputReport reply)
      | Category.NfcModeReport =>
          Except.ok (s.mcu.update_nfc_report, List.take 50 jc ++ mcuBytes s.mcu.update_nfc_report)
      | Category.PassThrough => Except.ok (s.mcu, jc)) = Except.ok (m1, outFrame)) :
    (m1.state ≠ s.mcu.state →
      classify jc = Category.SetMcuConfig ∨ classify jc = Category.SetMcuState) ∧
    (m1.action ≠ s.mcu.action →
      classify jc = Category.SetMcuState ∨
      (classify jc = Category.NfcModeReport ∧
        (s.mcu.action = McuAction.READ_TAG ∨ s.mcu.action = McuAction.READ_TAG_2))) := by
  cases hc : classify jc with
  | SetMcuConfig =>
    simp only [hc] at heq
    constructor
    · intro hne
      exact Or.inl rfl
    · intro hne
      exact absurd (config_ok_action s.mcu jc
        (rememberUpdate s.lastOutputReport reply) m1 outFrame heq) hne
  | SetMcuState =>
    exact ⟨fun _ => Or.inr rfl, fun _ => Or.inl rfl⟩
  | NfcModeReport =>
    simp only [hc, Except.ok.injEq, Prod.mk.injEq] at heq
    obtain ⟨hm1, -⟩ := heq
    constructor
    · intro hne
      exfalso
      apply hne
      rw [← hm1, update_nfc_report_state]
    · intro hne
      refine Or.inr ⟨rfl, update_nfc_report_action_changed s.mcu ?_⟩
      rw [hm1]
      exact hne
  | PassThrough =>
    simp only [hc, Except.ok.injEq, Prod.mk.injEq] at heq
    obtain ⟨hm1, -⟩ := heq
    exact ⟨fun hne => absurd (by rw [← hm1]) hne,
           fun hne => absurd (by rw [← hm1]) hne⟩

/-- Counterexample to C3: a SetMcuState peripheral frame (not an MCU-config
frame) also changes `operating_state` — handling a concrete Suspend frame
while the MCU is in the NFC state moves it to STAND_BY. -/
theorem mcu_state_frame_changes_operating_state :
    classify (((List.replicate 50 0).set 14 0x80).set 15 0x22) ≠ Category.SetMcuConfig ∧
    (∃ s2 sent evs,
      mainLoopStep (some [1])
          ⟨(initialMcu.set_nfc (some [1])).set_state McuState.NFC,
            some (List.replicate 13 0), 0, 0⟩
          none (((List.replicate 50 0).set 14 0x80).set 15 0x22)
        = Except.ok (s2, sent, evs) ∧
      s2.mcu.state ≠ ((initialMcu.set_nfc (some [1])).set_state McuState.NFC).state) := by
  refine ⟨by decide, _, _, _, rfl, by decide⟩

/-- Claim C3 (amended): `operating_state` is changed only by handling a
SetMcuConfig or SetMcuState peripheral frame, and `current_action` is
changed only by a host MCU-subcommand frame (byte 1 = 0x11), by a
SetMcuState frame (Resume clears the action), or by the automatic
READ_TAG→READ_TAG_2→READ_FINISHED advance that an NfcModeReport poll
drives while a read is in progress; no other frame kind mutates either
field. -/
theorem mcu_field_mutation_sources (nfc : Option (List Nat)) (s : LoopState)
    (reply : Option (List Nat)) (jc : List Nat) (s2 : LoopState)
    (sent : List Nat) (evs : List Event)
    (h : mainLoopStep nfc s reply jc = Except.ok (s2, sent, evs)) :
    (s2.mcu.state ≠ s.mcu.state →
      classify jc = Category.SetMcuConfig ∨ classify jc = Category.SetMcuState) ∧
    (s2.mcu.action ≠ s.mcu.action →
      (∃ r, reply = some r ∧ byteAt r 1 = 0x11) ∨
      classify jc = Category.SetMcuState ∨
      (classify jc = Category.NfcModeReport ∧
        (s.mcu.action = McuAction.READ_TAG ∨ s.mcu.action = McuAction.READ_TAG_2))) := by
  cases nfc with
  | none =>
    simp only [mainLoopStep, Except.ok.injEq, Prod.mk.injEq] at h
    obtain ⟨h1, -, -⟩ := h
    have hmcu : s2.mcu = s.mcu := by rw [← h1]
    rw [hmcu]
    exact ⟨fun hne => absurd rfl hne, fun hne => absurd rfl hne⟩
  | some d =>
    cases reply with
    | none =>
      simp only [mainLoopStep] at h
      split at h
      · simp at h
      next m1 outFrame heq =>
        simp only [Except.ok.injEq, Prod.mk.injEq] at h
        obtain ⟨h1, -, -⟩ := h
        have hmcu : s2.mcu = m1 := by rw [← h1]
        have hcore := mcu_mutation_core outFrame s m1 none jc heq
        rw [hmcu]
        exact ⟨fun hne => hcore.1 hne, fun hne => Or.inr (hcore.2 hne)⟩
    | some r =>
      by_cases hb : byteAt r 1 = 0x11
      · simp only [mainLoopStep] at h
        split at h
        · simp at h
        next m1 outFrame heq =>
          simp only [Except.ok.injEq, Prod.mk.injEq] at h
          obtain ⟨h1, -, -⟩ := h
          have hmcu : s2.mcu = hostTransition m1 r := by rw [← h1]
          have hcore := mcu_mutation_core outFrame s m1 (some r) jc heq
          constructor
          · intro hne
            rw [hmcu, hostTransition_state] at hne
            exact hcore.1 hne
          · intro hne
            exact Or.inl ⟨r, rfl, hb⟩
      · simp only [mainLoopStep] at h
        split at h
        · simp at h
        next m1 outFrame heq =>
          simp only [Except.ok.injEq, Prod.mk.injEq] at h
          obtain ⟨h1, -, -⟩ := h
          have hmcu : s2.mcu = hostTransition m1 r := by rw [← h1]
          have hcore := mcu_mutation_core outFrame s m1 (some r) jc heq
          constructor
          · intro hne
            rw [hmcu, hostTransition_not_subcommand m1 r hb] at hne
            exact hcore.1 hne
          · intro hne
            rw [hmcu, hostTransition_not_subcommand m1 r hb] at hne
            exact Or.inr (hcore.2 hne)

/-- Witness for C3 (amended): a concrete SetMcuConfig iteration (config
argument 4 = NFC) whose state change is licensed by the first disjunct. -/
theorem mcu_field_mutation_sources_witness :
    ((((initialMcu.set_nfc (some [1])).update_status).set_state McuState.NFC).state
        ≠ (initialMcu.set_nfc (some [1])).state →
      classify (((List.replicate 50 0).set 14 0xA0).set 15 0x21) = Category.SetMcuConfig ∨
      classify (((List.replicate 50 0).set 14 0xA0).set 15 0x21) = Category.SetMcuState) ∧
    ((((initialMcu.set_nfc (some [1])).update_status).set_state McuState.NFC).action
        ≠ (initialMcu.set_nfc (some [1])).action →
      (∃ r, (none : Option (List Nat)) = some r ∧ byteAt r 1 = 0x11) ∨
      classify (((List.replicate 50 0).set 14 0xA0).set 15 0x21) = Category.SetMcuState ∨
      (classify (((List.replicate 50 0).set 14 0xA0).set 15 0x21) = Category.NfcModeReport ∧
        ((initialMcu.set_nfc (some [1])).action = McuAction.READ_TAG ∨
         (initialMcu.set_nfc (some [1])).action = McuAction.READ_TAG_2))) :=
  mcu_field_mutation_sources (some [1])
    ⟨initialMcu.set_nfc (some [1]), some ((List.replicate 15 0).set 14 4), 0, 0⟩
    none (((List.replicate 50 0).set 14 0xA0).set 15 0x21) _ _ _ rfl
